import Mathlib

/-!
Verification of the guidance-for-generative-ai-model-optimization-using-amazon-sagemaker
repository.  The repository consists of four Jupyter notebooks (linear scripts of
code cells calling the SageMaker SDK) and one CloudFormation template.  We embed
each notebook as the list of its code cells, each cell being the list of its
source lines, exactly as they appear in the .ipynb files, and the template's
parameters and IAM role as Lean structures mirroring the JSON.  Claims about the
notebooks are settled by decidable syntactic predicates over the embedded cells;
claims about the template are settled over the structured embedding.
-/

/-- Characters that can appear in a Python identifier. -/
def isIdentChar (c : Char) : Bool := c.isAlphanum || c == '_'

/-- Does the pattern occur at the front of the text? -/
def listStarts : List Char → List Char → Bool
  | [], _ => true
  | _ :: _, [] => false
  | p :: ps, c :: cs => p == c && listStarts ps cs

/-- Does the pattern occur anywhere in the text? -/
def listHasSub (pat : List Char) : List Char → Bool
  | [] => listStarts pat []
  | c :: cs => listStarts pat (c :: cs) || listHasSub pat cs

/-- Substring test on strings. -/
def containsSub (s pat : String) : Bool := listHasSub pat.toList s.toList

/-- String starts-with test. -/
def strStarts (s pat : String) : Bool := listStarts pat.toList s.toList

/-- Split a line of Python source into maximal identifier-character runs
(the word-level tokens; punctuation and whitespace are separators). -/
def tokensAux : List Char → List Char → List String
  | [], acc => if acc.isEmpty then [] else [String.mk acc.reverse]
  | c :: rest, acc =>
    if isIdentChar c then tokensAux rest (c :: acc)
    else if acc.isEmpty then tokensAux rest []
    else String.mk acc.reverse :: tokensAux rest []

/-- The word-level tokens of one source line. -/
def pyTokens (l : String) : List String := tokensAux l.toList []

/-- A notebook code cell: the list of its source lines. -/
abbrev Cell := List String

/-- A notebook: the list of its code cells, in document order. -/
abbrev Notebook := List Cell

/-- Does some line of the cell contain the pattern? -/
def cellHas (c : Cell) (pat : String) : Bool := c.any (fun l => containsSub l pat)

/-- Index of the first cell containing the pattern. -/
def idxOf (nb : Notebook) (pat : String) : Option Nat :=
  nb.findIdx? (fun c => cellHas c pat)

/-- How many cells of the notebook contain the pattern. -/
def countCells (nb : Notebook) (pat : String) : Nat :=
  (nb.filter (fun c => cellHas c pat)).length

/-- Both patterns occur, and the first cell containing p strictly precedes the
first cell containing q. -/
def beforeIn (nb : Notebook) (p q : String) : Bool :=
  match idxOf nb p, idxOf nb q with
  | some i, some j => decide (i < j)
  | _, _ => false

/-! ## Notebook 1: speculative decoding with the SageMaker-provided draft model
Code cells of
source/llama3-70b-js-optimized-deployment---nb1---speculative-decoding-with-sagemaker-provided-draft-model.ipynb -/

def nb1_cell_pip : Cell :=
  ["%pip install sagemaker>=2.225.0 boto3 huggingface_hub \x2d\x2dupgrade \x2d\x2dquiet"]

def nb_cell_imports : Cell :=
  [ "import boto3"
  , "from sagemaker.serve.builder.model_builder import ModelBuilder"
  , "from sagemaker.serve.builder.schema_builder import SchemaBuilder"
  , "from sagemaker.session import Session"
  , "import logging"
  , "import huggingface_hub"
  , "from pathlib import Path" ]

def nb_cell_session : Cell :=
  [ "sagemaker_session = Session()"
  , ""
  , "artifacts_bucket_name = sagemaker_session.default_bucket()"
  , "execution_role_arn = sagemaker_session.get_caller_identity_arn()"
  , ""
  , "js_model_id = \"meta-textgeneration-llama-3-70b\""
  , "gpu_instance_type = \"ml.p4d.24xlarge\""
  , "neuron_instance_type = \"ml.inf2.48xlarge\"" ]

def nb_cell_schema : Cell :=
  [ "response = \"Hello, I\x27m a language model, and I\x27m here to help you with your English.\""
  , ""
  , "sample_input = \x7b"
  , "    \"inputs\": \"Hello, I\x27m a language model,\","
  , "    \"parameters\": \x7b\"max_new_tokens\": 128, \"top_p\": 0.9, \"temperature\": 0.6\x7d,"
  , "\x7d"
  , ""
  , "sample_output = [\x7b\"generated_text\": response\x7d]"
  , ""
  , "schema_builder = SchemaBuilder(sample_input, sample_output)" ]

def nb_cell_model_builder : Cell :=
  [ "model_builder = ModelBuilder("
  , "    model=js_model_id,"
  , "    schema_builder=schema_builder,"
  , "    sagemaker_session=sagemaker_session,"
  , "    role_arn=execution_role_arn,"
  , "    log_level=logging.ERROR"
  , ")" ]

def nb_cell_cleanup : Cell :=
  [ "# Clean up"
  , "predictor.delete_model()"
  , "predictor.delete_endpoint(delete_endpoint_config=True)" ]

def nb1_cells : Notebook :=
  [ nb1_cell_pip
  , nb_cell_imports
  , nb_cell_session
  , nb_cell_schema
  , nb_cell_model_builder
  , ["model_builder.display_benchmark_metrics()"]
  , ["model_builder.set_deployment_config(config_name=\"lmi-optimized\", instance_type=\"ml.g5.48xlarge\")"]
  , ["model_builder.get_deployment_config()"]
  , ["optimized_model = model_builder.build()"]
  , ["predictor = optimized_model.deploy(accept_eula=True)"]
  , ["predictor.predict(sample_input)"]
  , nb_cell_cleanup ]

/-! ## Notebook 2: speculative decoding with an open-source draft model
Code cells of
source/llama3-70b-js-optimized-deployment---nb2---speculative-decoding-with-open-source-draft-model.ipynb -/

def nb2_cells : Notebook :=
  [ nb1_cell_pip
  , nb_cell_imports
  , nb_cell_session
  , nb_cell_schema
  , [ "custom_draft_model_id=\"meta-llama/Meta-Llama-3-8B\""
    , ""
    , "hf_local_download_dir = Path.cwd() / \"model_repo\""
    , "hf_local_download_dir.mkdir(exist_ok=True)"
    , ""
    , "huggingface_hub.snapshot_download("
    , "    repo_id=custom_draft_model_id,"
    , "    revision=\"main\","
    , "    local_dir=hf_local_download_dir,"
    , "    local_dir_use_symlinks=False,"
    , ")" ]
  , [ "custom_draft_model_uri = sagemaker_session.upload_data("
    , "    path=hf_local_download_dir.as_posix(),"
    , "    bucket=artifacts_bucket_name,"
    , "    key_prefix=\"spec-dec-custom-draft-model\","
    , ")" ]
  , [ "draft_uri = custom_draft_model_uri + \"/\" #need to point towards the uncompressed model artifacts"
    , "draft_uri" ]
  , [ "!aws s3 ls \x7bdraft_uri\x7d #verify model artifacts" ]
  , nb_cell_model_builder
  , [ "optimized_model = model_builder.optimize("
    , "    instance_type=gpu_instance_type,"
    , "    accept_eula=True,"
    , "    speculative_decoding_config=\x7b"
    , "        \"ModelSource\": draft_uri"
    , "    \x7d,"
    , ")" ]
  , ["predictor = optimized_model.deploy(accept_eula=True)"]
  , ["predictor.predict(sample_input)"]
  , nb_cell_cleanup ]

/-! ## Notebook 3: AWQ quantization
Code cells of source/llama3-70b-js-optimized-deployment---nb3-quantize-the-model-using-AWQ.ipynb -/

def nb3_cells : Notebook :=
  [ nb1_cell_pip
  , nb_cell_imports
  , nb_cell_session
  , nb_cell_schema
  , nb_cell_model_builder
  , [ "optimized_model = model_builder.optimize("
    , "    instance_type=gpu_instance_type,"
    , "    accept_eula=True,"
    , "    quantization_config=\x7b"
    , "        \"OverrideEnvironment\": \x7b"
    , "            \"OPTION_QUANTIZE\": \"awq\","
    , "        \x7d,"
    , "    \x7d,"
    , "    output_path=f\"s3://\x7bartifacts_bucket_name\x7d/awq-quantization/\","
    , ")" ]
  , [ "quantized_instance_type = \"ml.g5.12xlarge\"  # We can use a smaller instance type once quantized"
    , "predictor = optimized_model.deploy(instance_type=quantized_instance_type, accept_eula=True)" ]
  , ["predictor.predict(sample_input)"]
  , nb_cell_cleanup ]

/-! ## Notebook 4: compilation with the AWS Neuron compiler
Code cells of
source/llama3-70b-js-optimized-deployment---nb4---compile the model using the AWS Neuron Compiler .ipynb
(its ModelBuilder construction omits the log_level argument). -/

def nb4_cell_model_builder : Cell :=
  [ "model_builder = ModelBuilder("
  , "    model=js_model_id,"
  , "    schema_builder=schema_builder,"
  , "    sagemaker_session=sagemaker_session,"
  , "    role_arn=execution_role_arn,"
  , ")" ]

def nb4_cells : Notebook :=
  [ nb1_cell_pip
  , nb_cell_imports
  , nb_cell_session
  , nb_cell_schema
  , nb4_cell_model_builder
  , [ "optimized_model = model_builder.optimize("
    , "    instance_type=neuron_instance_type,"
    , "    accept_eula=True,"
    , "    compilation_config=\x7b"
    , "        \"OverrideEnvironment\": \x7b"
    , "            \"OPTION_TENSOR_PARALLEL_DEGREE\": \"24\","
    , "            \"OPTION_N_POSITIONS\": \"8192\","
    , "            \"OPTION_DTYPE\": \"fp16\","
    , "            \"OPTION_ROLLING_BATCH\": \"auto\","
    , "            \"OPTION_MAX_ROLLING_BATCH_SIZE\": \"4\","
    , "            \"OPTION_NEURON_OPTIMIZE_LEVEL\": \"2\","
    , "        \x7d"
    , "    \x7d,"
    , "    output_path=f\"s3://\x7bartifacts_bucket_name\x7d/neuron/\","
    , ")" ]
  , ["predictor = optimized_model.deploy(accept_eula=True, model_data_download_timeout=3600, volume_size=512)"]
  , ["predictor.predict(sample_input)"]
  , nb_cell_cleanup ]

/-- All four notebooks, in their numbering order. -/
def notebooks : List Notebook := [nb1_cells, nb2_cells, nb3_cells, nb4_cells]

/-! ## Structured embedding of the notebook-level configuration values -/

/-- Instance type bound to gpu_instance_type in every notebook's setup cell. -/
def gpu_instance_type : String := "ml.p4d.24xlarge"

/-- Instance type bound to neuron_instance_type in every notebook's setup cell. -/
def neuron_instance_type : String := "ml.inf2.48xlarge"

/-- Instance type bound to quantized_instance_type in notebook 3's deploy cell. -/
def quantized_instance_type : String := "ml.g5.12xlarge"

/-- Arguments of notebook 1's model_builder.set_deployment_config call. -/
structure DeploymentConfigCall where
  config_name : String
  instance_type : String

/-- Notebook 1: model_builder.set_deployment_config(config_name="lmi-optimized",
instance_type="ml.g5.48xlarge"). -/
def nb1_set_deployment_config : DeploymentConfigCall :=
  { config_name := "lmi-optimized", instance_type := "ml.g5.48xlarge" }

/-- Instance type passed to model_builder.optimize in notebook 3. -/
def nb3_optimize_instance_type : String := gpu_instance_type

/-- Instance type passed to optimized_model.deploy in notebook 3. -/
def nb3_deploy_instance_type : String := quantized_instance_type

/-- A Python literal value as written in the notebooks' configuration
dictionaries: a string literal, a number, or a nested dictionary. -/
inductive ConfigVal where
  | s (v : String)
  | n (v : Int)
  | dict (kvs : List (String × ConfigVal))

/-- Notebook 3's quantization_config argument to model_builder.optimize. -/
def quantization_config : ConfigVal :=
  .dict [("OverrideEnvironment", .dict [("OPTION_QUANTIZE", .s "awq")])]

/-- Notebook 4's compilation_config argument to model_builder.optimize. -/
def compilation_config : ConfigVal :=
  .dict [("OverrideEnvironment", .dict
    [ ("OPTION_TENSOR_PARALLEL_DEGREE", .s "24")
    , ("OPTION_N_POSITIONS", .s "8192")
    , ("OPTION_DTYPE", .s "fp16")
    , ("OPTION_ROLLING_BATCH", .s "auto")
    , ("OPTION_MAX_ROLLING_BATCH_SIZE", .s "4")
    , ("OPTION_NEURON_OPTIMIZE_LEVEL", .s "2") ])]

/-- Notebook 2's speculative_decoding_config argument to model_builder.optimize,
as a function of the runtime value of draft_uri. -/
def speculative_decoding_config (draft_uri : String) : ConfigVal :=
  .dict [("ModelSource", .s draft_uri)]

/-- The configuration is exactly an OverrideEnvironment dictionary in which
every value is a string literal. -/
def isStringEnvMapping : ConfigVal → Bool
  | .dict [("OverrideEnvironment", .dict kvs)] =>
      kvs.all (fun kv => match kv.2 with | .s _ => true | _ => false)
  | _ => false

/-- The configuration is exactly a ModelSource entry holding a string URI. -/
def isDraftModelPointer : ConfigVal → Bool
  | .dict [("ModelSource", .s _)] => true
  | _ => false

/-- Look a key up in an OverrideEnvironment dictionary. -/
def envLookup (c : ConfigVal) (k : String) : Option ConfigVal :=
  match c with
  | .dict [("OverrideEnvironment", .dict kvs)] =>
      (kvs.find? (fun kv => kv.1 == k)).map (fun kv => kv.2)
  | _ => none

/-! ## Embedding of deployment/awsgenaimodelopt.template -/

/-- One entry of the template's Parameters section.  Optional fields are none
exactly when the corresponding JSON key is absent from the declaration. -/
structure TemplateParameter where
  ptype : String
  pdefault : Option String
  description : Option String
  minLength : Option Nat
  maxLength : Option Nat
  allowedPattern : Option String
  constraintDescription : Option String

/-- Parameters.SageMakerNotebookName of the template. -/
def sageMakerNotebookName : TemplateParameter :=
  { ptype := "String"
  , pdefault := some "aws-llm-apps-blog"
  , description := some "Enter name of SageMaker Notebook instance. The notebook name must _not_ already exist in your AWS account/region."
  , minLength := some 1
  , maxLength := some 63
  , allowedPattern := some "^[a-z0-9](-*[a-z0-9])*"
  , constraintDescription := some "Must be lowercase or numbers with a length of 1-63 characters." }

/-- Parameters.SageMakerIAMRole of the template. -/
def sageMakerIAMRole : TemplateParameter :=
  { ptype := "String"
  , pdefault := some "LLMAppsBlogIAMRole"
  , description := some "Name of IAM role that will be created by this CloudFormation template. The role name must _not_ already exist in your AWS account."
  , minLength := none
  , maxLength := none
  , allowedPattern := none
  , constraintDescription := none }

/-- A parameter declaration is validated in the sense of the spec: it carries a
minimum-length constraint of at least 1 and an allowed-pattern constraint. -/
def paramValidated (p : TemplateParameter) : Bool :=
  (match p.minLength with | some n => decide (1 ≤ n) | none => false)
    && p.allowedPattern.isSome

/-- One statement of an IAM policy document. -/
structure PolicyStatement where
  sid : String
  effect : String
  actions : List String
  resources : List String

/-- The Fn::Sub template of the single Resource entry of the inline policy's
statement. -/
def ecrRepositoryArnPattern : String :=
  "arn:aws:ecr:$\x7bAWS::Region\x7d:$\x7bAWS::AccountId\x7d:repository/*"

/-- The single statement (Sid ReadWriteFromECR) of the CustomNotebookAccess
inline policy attached to the provisioned role. -/
def readWriteFromECR : PolicyStatement :=
  { sid := "ReadWriteFromECR"
  , effect := "Allow"
  , actions :=
    [ "ecr:BatchGetImage"
    , "ecr:BatchCheckLayerAvailability"
    , "ecr:CompleteLayerUpload"
    , "ecr:DescribeImages"
    , "ecr:DescribeRepositories"
    , "ecr:GetDownloadUrlForLayer"
    , "ecr:InitiateLayerUpload"
    , "ecr:ListImages"
    , "ecr:PutImage"
    , "ecr:UploadLayerPart"
    , "ecr:CreateRepository"
    , "ecr:GetAuthorizationToken"
    , "ec2:DescribeAvailabilityZones" ]
  , resources := [ecrRepositoryArnPattern] }

/-- The statements of the CustomNotebookAccess inline policy, in order. -/
def customNotebookAccessStatements : List PolicyStatement := [readWriteFromECR]

/-- Role.Properties.ManagedPolicyArns of the template, in order. -/
def roleManagedPolicyArns : List String :=
  [ "arn:aws:iam::aws:policy/AmazonSageMakerFullAccess"
  , "arn:aws:iam::aws:policy/AWSCloudFormationReadOnlyAccess"
  , "arn:aws:iam::aws:policy/TranslateReadOnly" ]

/-! ## Derived predicates over the embedded notebooks -/

/-- The notebook runs the standard pipeline in document order: dependency
installation, then schema-example construction, then model-handle construction,
then the step named by mid (the optimize call, or the build call for notebook
1), then deployment, then the example inference call, then endpoint deletion. -/
def pipelineOrdered (nb : Notebook) (mid : String) : Bool :=
  beforeIn nb "pip install" "SchemaBuilder(" &&
  beforeIn nb "SchemaBuilder(" "ModelBuilder(" &&
  beforeIn nb "ModelBuilder(" mid &&
  beforeIn nb mid ".deploy(" &&
  beforeIn nb ".deploy(" ".predict(" &&
  beforeIn nb ".predict(" ".delete_endpoint("

/-- Exactly one cell of the notebook calls predict; it precedes the cell that
deletes the endpoint; that cell is the final code cell, deletes both the model
and the endpoint with its endpoint configuration, and contains no predict
call. -/
def invokeOnceThenCleanup (nb : Notebook) : Bool :=
  countCells nb ".predict(" == 1 &&
  beforeIn nb ".predict(" ".delete_endpoint(" &&
  idxOf nb ".delete_endpoint(" == some (nb.length - 1) &&
  (match nb.getLast? with
   | some c =>
       cellHas c "predictor.delete_model()" &&
       cellHas c "predictor.delete_endpoint(delete_endpoint_config=True)" &&
       !(cellHas c ".predict(")
   | none => false)

/-- Python keywords introducing conditional logic or error handling. -/
def branchToken (t : String) : Bool :=
  t == "if" || t == "elif" || t == "else" || t == "try" ||
  t == "except" || t == "finally" || t == "raise"

/-- No line of the cell contains a conditional or error-handling keyword as a
word-level token. -/
def cellNoBranch (c : Cell) : Bool :=
  c.all (fun l => (pyTokens l).all (fun t => !(branchToken t)))

/-- No code cell of the notebook contains conditional logic or error
handling. -/
def nbNoBranch (nb : Notebook) : Bool := nb.all cellNoBranch

/-- The first cell calling model_builder.optimize passes an output_path
argument. -/
def optimizeCellHasOutputPath (nb : Notebook) : Bool :=
  match nb.find? (fun c => cellHas c ".optimize(") with
  | some c => cellHas c "output_path="
  | none => false

/-! ## Claims -/

/-- Claim C1 (counterexample): notebook 1 contains no cell that submits an
optimization request — no model_builder.optimize call occurs anywhere in its
code cells — yet it contains exactly one deploy call, so it does not submit an
optimization request before deploying. -/
theorem c1_counterexample :
    countCells nb1_cells ".optimize(" = 0 ∧ countCells nb1_cells ".deploy(" = 1 := by
  decide

/-- Claim C1 (amended): notebooks 2, 3 and 4 each perform, in document order,
dependency installation, request/response schema construction, model-handle
construction, the asynchronous optimization request, deployment, one example
inference call and endpoint teardown; notebook 1 performs the same sequence
except that, in place of an optimization request, it selects a pre-optimized
deployment configuration and builds the model handle before deploying, and it
contains no optimize call at all. -/
theorem c1_amended_pipeline :
    pipelineOrdered nb2_cells ".optimize(" = true ∧
    pipelineOrdered nb3_cells ".optimize(" = true ∧
    pipelineOrdered nb4_cells ".optimize(" = true ∧
    pipelineOrdered nb1_cells ".build()" = true ∧
    beforeIn nb1_cells ".set_deployment_config(" ".build()" = true ∧
    countCells nb1_cells ".optimize(" = 0 := by
  decide

/-- Claim C2 (counterexample): notebook 2 contains exactly one optimization
request (its speculative-decoding optimize call) and no cell of notebook 2
mentions output_path, so that request is made without a named output storage
location. -/
theorem c2_counterexample :
    countCells nb2_cells ".optimize(" = 1 ∧ countCells nb2_cells "output_path" = 0 := by
  decide

/-- Claim C2 (amended): the optimization requests of notebook 3 (quantization)
and notebook 4 (hardware compilation) pass an output_path argument, while the
speculative-decoding request of notebook 2 does not. -/
theorem c2_amended_output_path :
    optimizeCellHasOutputPath nb3_cells = true ∧
    optimizeCellHasOutputPath nb4_cells = true ∧
    optimizeCellHasOutputPath nb2_cells = false := by
  decide

/-- Claim C3 (counterexample): the access-role name parameter SageMakerIAMRole
carries neither a minimum-length constraint nor an allowed-pattern constraint,
so it is not validated in the claimed sense. -/
theorem c3_counterexample :
    paramValidated sageMakerIAMRole = false ∧
    sageMakerIAMRole.minLength = none ∧
    sageMakerIAMRole.allowedPattern = none := by
  decide

/-- Claim C3 (amended): only the notebook-environment name parameter
SageMakerNotebookName is validated — it carries MinLength 1, MaxLength 63 and
an allowed pattern — while the access-role name parameter SageMakerIAMRole is
declared as a plain String with a default and carries no length or pattern
constraint. -/
theorem c3_amended_validation :
    paramValidated sageMakerNotebookName = true ∧
    sageMakerNotebookName.minLength = some 1 ∧
    sageMakerNotebookName.maxLength = some 63 ∧
    sageMakerNotebookName.allowedPattern = some "^[a-z0-9](-*[a-z0-9])*" ∧
    sageMakerIAMRole.ptype = "String" ∧
    paramValidated sageMakerIAMRole = false := by
  decide

/-- Claim C4 (counterexample): the provisioned role's access is broader than
ECR read/write plus the CloudFormation and Translate read-only policies — the
role also attaches the AmazonSageMakerFullAccess managed policy, and the inline
statement also grants the non-ECR action ec2:DescribeAvailabilityZones. -/
theorem c4_counterexample :
    "arn:aws:iam::aws:policy/AmazonSageMakerFullAccess" ∈ roleManagedPolicyArns ∧
    "ec2:DescribeAvailabilityZones" ∈ readWriteFromECR.actions := by
  decide

/-- Claim C4 (amended): the inline policy statement allows ECR read/write
actions (every action is an ecr: action except ec2:DescribeAvailabilityZones,
which it also grants) on repository resources, and the role's managed policies
are exactly SageMaker full access, CloudFormation read-only and Translate
read-only. -/
theorem c4_amended_grants :
    readWriteFromECR.effect = "Allow" ∧
    (readWriteFromECR.actions.all
      (fun a => strStarts a "ecr:" || a == "ec2:DescribeAvailabilityZones")) = true ∧
    "ecr:PutImage" ∈ readWriteFromECR.actions ∧
    "ecr:BatchGetImage" ∈ readWriteFromECR.actions ∧
    roleManagedPolicyArns =
      [ "arn:aws:iam::aws:policy/AmazonSageMakerFullAccess"
      , "arn:aws:iam::aws:policy/AWSCloudFormationReadOnlyAccess"
      , "arn:aws:iam::aws:policy/TranslateReadOnly" ] := by
  decide

/-- Claim C5: no code cell of any of the four notebooks contains conditional
logic or error handling — no if/elif/else and no try/except/finally/raise
occurs as a word-level token on any source line of any code cell. -/
theorem c5_no_branch_or_error_handling : (notebooks.all nbNoBranch) = true := by
  decide

/-- Claim C6: in every notebook exactly one example inference call occurs, it
precedes the cleanup cell, and the cleanup cell — the final code cell — deletes
the backing model and the endpoint together with its endpoint configuration,
so the endpoint is never invoked after teardown. -/
theorem c6_invoke_once_then_cleanup : (notebooks.all invokeOnceThenCleanup) = true := by
  decide

/-- Claim C7: every optimization configuration constructed by the notebooks is
either an OverrideEnvironment mapping whose values are all string literals
(including the numeric tensor-parallelism degree and maximum batch size of the
compilation configuration) or a ModelSource pointer to a draft-model artifact
location, whatever URI the draft model was uploaded to. -/
theorem c7_config_shapes :
    isStringEnvMapping quantization_config = true ∧
    isStringEnvMapping compilation_config = true ∧
    envLookup compilation_config "OPTION_TENSOR_PARALLEL_DEGREE" = some (.s "24") ∧
    envLookup compilation_config "OPTION_MAX_ROLLING_BATCH_SIZE" = some (.s "4") ∧
    ∀ draft_uri : String, isDraftModelPointer (speculative_decoding_config draft_uri) = true :=
  ⟨rfl, rfl, rfl, rfl, fun _ => rfl⟩

/-- Claim C7 at a concrete draft-model URI. -/
theorem c7_witness :
    isDraftModelPointer (speculative_decoding_config "s3://bucket/spec-dec-custom-draft-model/") = true :=
  c7_config_shapes.2.2.2.2 "s3://bucket/spec-dec-custom-draft-model/"

/-- Claim C8: notebook 1 sets its pre-optimized deployment configuration with
instance type ml.g5.48xlarge, which differs from both instance types bound by
its setup cell (gpu_instance_type = ml.p4d.24xlarge and neuron_instance_type =
ml.inf2.48xlarge), and exactly one cell of notebook 1 passes that instance
type. -/
theorem c8_pre_optimized_instance_type :
    nb1_set_deployment_config.instance_type = "ml.g5.48xlarge" ∧
    nb1_set_deployment_config.instance_type ≠ gpu_instance_type ∧
    nb1_set_deployment_config.instance_type ≠ neuron_instance_type ∧
    countCells nb1_cells "instance_type=\"ml.g5.48xlarge\"" = 1 := by
  decide

/-- Claim C9: in notebook 3 the quantization job is requested for
ml.p4d.24xlarge while the quantized model is deployed on ml.g5.12xlarge — the
deploy call overrides the optimization instance type, and the notebook's own
comment records that the override is to a smaller instance type. -/
theorem c9_deploy_overrides_instance_type :
    nb3_optimize_instance_type = "ml.p4d.24xlarge" ∧
    nb3_deploy_instance_type = "ml.g5.12xlarge" ∧
    nb3_deploy_instance_type ≠ nb3_optimize_instance_type ∧
    countCells nb3_cells "a smaller instance type once quantized" = 1 := by
  decide

/-- Claim C10: every statement of the CustomNotebookAccess inline policy
restricts its Resource to the region- and account-scoped ECR repository ARN
pattern — never a wildcard over all resources. -/
theorem c10_resource_scoped :
    (customNotebookAccessStatements.all
      (fun s => s.resources.all (fun r => r == ecrRepositoryArnPattern))) = true ∧
    strStarts ecrRepositoryArnPattern "arn:aws:ecr:" = true ∧
    containsSub ecrRepositoryArnPattern ":repository/" = true ∧
    (customNotebookAccessStatements.all
      (fun s => s.resources.all (fun r => r != "*"))) = true := by
  decide
